import Mathlib

/-!
Verification development for the API specification generator
(`api_spec_generator/sdk_api_generator.py`).

The Python program is shallowly embedded: Python dict/list/str/int/float/bool/None
values flowing through `json.loads` are modeled by the inductive type `Json`;
`json.loads` is modeled by a fuel-based recursive-descent parser `json_loads`
(total, returning `Option Json`; a raised `json.JSONDecodeError` is `none`).
Numeric literals with a fraction or exponent are modeled exactly as decimals
`m * 10 ^ e` (constructor `Json.dec`); binary floating point rounding is not
modeled, and no claim depends on it.  `NaN`/`Infinity` literals and surrogate
pair combination in `\u` escapes are not modeled either; no claim touches them.
Python exceptions that the source does not catch (`TypeError`, `KeyError`) are
modeled with `Except PyErr`.
-/

/-- Model of the Python/JSON value domain.  Python `None` and JSON `null`
are both `Json.null`; ints are `Json.num`; floats are `Json.dec m e`
(the exact decimal `m * 10 ^ e`, normalized so that `m` has no trailing
zero digits and `0.0` is `dec 0 0`); dicts are association lists in
insertion order (lookup takes the last binding, mirroring the fact that a
Python dict built from duplicate JSON keys keeps the last value). -/
inductive Json where
  | null
  | bool (b : Bool)
  | num (n : Int)
  | dec (m : Int) (e : Int)
  | str (s : String)
  | arr (elems : List Json)
  | obj (entries : List (String × Json))

/-- Python dict lookup `d[k]` restricted to entries: with duplicate keys the
last binding wins, as in a dict built by the json decoder. -/
def pyObjGet (kvs : List (String × Json)) (k : String) : Option Json :=
  match kvs with
  | [] => none
  | kv :: rest =>
    match pyObjGet rest k with
    | some x => some x
    | none => if kv.1 == k then some kv.2 else none

/-- Python truthiness (`bool(x)`) on the modeled value domain. -/
def pyTruthy : Json → Bool
  | Json.null => false
  | Json.bool b => b
  | Json.num n => n != 0
  | Json.dec m _ => m != 0
  | Json.str s => s != ""
  | Json.arr xs => !xs.isEmpty
  | Json.obj kvs => !kvs.isEmpty

/-- Whitespace accepted by the JSON grammar between tokens. -/
def jsonIsSpace (c : Char) : Bool :=
  c = ' ' || c = '\t' || c = '\n' || c = '\r'

def skipWs (cs : List Char) : List Char := cs.dropWhile jsonIsSpace

def hexDigit (c : Char) : Option Nat :=
  if c.isDigit then some (c.toNat - 48)
  else if 'a' ≤ c && c ≤ 'f' then some (c.toNat - 87)
  else if 'A' ≤ c && c ≤ 'F' then some (c.toNat - 55)
  else none

def escapeChar (e : Char) : Option Char :=
  if e = '"' then some '"'
  else if e = '\\' then some '\\'
  else if e = '/' then some '/'
  else if e = 'b' then some (Char.ofNat 8)
  else if e = 'f' then some (Char.ofNat 12)
  else if e = 'n' then some '\n'
  else if e = 'r' then some '\r'
  else if e = 't' then some '\t'
  else none

/-- Body of a JSON string literal, after the opening quote: returns the decoded
characters and the input after the closing quote.  Unescaped control
characters are rejected (the decoder runs in strict mode). -/
def parseStringBody : Nat → List Char → Option (List Char × List Char)
  | 0, _ => none
  | _ + 1, [] => none
  | f + 1, c :: rest =>
    if c = '"' then some ([], rest)
    else if c = '\\' then
      match rest with
      | [] => none
      | e :: rest2 =>
        if e = 'u' then
          match rest2 with
          | a :: b :: c2 :: d :: rest3 =>
            match hexDigit a, hexDigit b, hexDigit c2, hexDigit d with
            | some ha, some hb, some hc, some hd =>
              match parseStringBody f rest3 with
              | some (cs2, rem) =>
                some (Char.ofNat (((ha * 16 + hb) * 16 + hc) * 16 + hd) :: cs2, rem)
              | none => none
            | _, _, _, _ => none
          | _ => none
        else
          match escapeChar e with
          | some ec =>
            match parseStringBody f rest2 with
            | some (cs2, rem) => some (ec :: cs2, rem)
            | none => none
          | none => none
    else if c.toNat < 32 then none
    else
      match parseStringBody f rest with
      | some (cs2, rem) => some (c :: cs2, rem)
      | none => none

def digitsVal (ds : List Char) : Nat :=
  ds.foldl (fun acc c => acc * 10 + (c.toNat - 48)) 0

/-- Normalize an exact decimal by stripping trailing zero digits of the
mantissa, so that equal decimal literals get equal representations. -/
def normDec : Nat → Int → Int → Json
  | 0, m, e => Json.dec m e
  | f + 1, m, e =>
    if m = 0 then Json.dec 0 0
    else if m % 10 = 0 then normDec f (m / 10) (e + 1)
    else Json.dec m e

/-- A JSON number token, mirroring the decoder's number regex
`-?(0|[1-9][0-9]*)(\.[0-9]+)?([eE][-+]?[0-9]+)?`: it consumes exactly the
matched span (so `012` parses as `0` leaving `12`, which the caller then
rejects as extra data, as Python does). -/
def parseNumber (cs : List Char) : Option (Json × List Char) :=
  let p := match cs with
    | c :: rest => if c = '-' then (true, rest) else (false, cs)
    | [] => (false, cs)
  let neg := p.1
  match p.2 with
  | [] => none
  | d :: rest1 =>
    if !d.isDigit then none
    else
      let ip : List Char × List Char :=
        if d = '0' then ([d], rest1)
        else (d :: rest1.takeWhile Char.isDigit, rest1.dropWhile Char.isDigit)
      let intDs := ip.1
      let fp : List Char × List Char × Bool :=
        match ip.2 with
        | c :: rest2 =>
          if c = '.' then
            let fd := rest2.takeWhile Char.isDigit
            if fd.isEmpty then ([], ip.2, false)
            else (fd, rest2.dropWhile Char.isDigit, true)
          else ([], ip.2, false)
        | [] => ([], ip.2, false)
      let fracDs := fp.1
      let ep : Int × List Char × Bool :=
        match fp.2.1 with
        | e :: rest3 =>
          if e = 'e' || e = 'E' then
            match rest3 with
            | s :: rest4 =>
              if s = '+' || s = '-' then
                let ed := rest4.takeWhile Char.isDigit
                if ed.isEmpty then ((0 : Int), fp.2.1, false)
                else ((if s = '-' then -(digitsVal ed : Int) else (digitsVal ed : Int)),
                      rest4.dropWhile Char.isDigit, true)
              else
                let ed := rest3.takeWhile Char.isDigit
                if ed.isEmpty then ((0 : Int), fp.2.1, false)
                else ((digitsVal ed : Int), rest3.dropWhile Char.isDigit, true)
            | [] => ((0 : Int), fp.2.1, false)
          else ((0 : Int), fp.2.1, false)
        | [] => ((0 : Int), fp.2.1, false)
      if fp.2.2 || ep.2.2 then
        let m : Int := (if neg then -1 else 1) * ((digitsVal (intDs ++ fracDs) : Nat) : Int)
        some (normDec 64 m (ep.1 - (fracDs.length : Int)), ep.2.1)
      else
        some (Json.num (if neg then -(digitsVal intDs : Int) else (digitsVal intDs : Int)), ep.2.1)

/-- Parser modes: a value, the remaining items of an array (after `[` and the
first item position), or the remaining fields of an object. -/
inductive PMode where
  | value
  | items (acc : List Json)
  | fields (acc : List (String × Json))

/-- Recursive-descent JSON parser, defunctionalized over `PMode` so the only
recursion is structural on the fuel (hence kernel-reducible).  Fuel
`2 * length + 8` always suffices, since every other fuel decrement consumes
at least one input character; fuel exhaustion yields `none`, matching the
decoder's behavior of raising on pathologically deep nesting. -/
def parseStep : Nat → PMode → List Char → Option (Json × List Char)
  | 0, _, _ => none
  | f + 1, PMode.value, cs =>
    match skipWs cs with
    | [] => none
    | c :: rest =>
      if c = '"' then
        match parseStringBody (rest.length + 1) rest with
        | some (scs, rem) => some (Json.str (String.mk scs), rem)
        | none => none
      else if c = 't' then
        if "rue".toList.isPrefixOf rest then some (Json.bool true, rest.drop 3) else none
      else if c = 'f' then
        if "alse".toList.isPrefixOf rest then some (Json.bool false, rest.drop 4) else none
      else if c = 'n' then
        if "ull".toList.isPrefixOf rest then some (Json.null, rest.drop 3) else none
      else if c = '[' then
        match skipWs rest with
        | c2 :: rest2 =>
          if c2 = ']' then some (Json.arr [], rest2)
          else parseStep f (PMode.items []) (c2 :: rest2)
        | [] => none
      else if c = '{' then
        match skipWs rest with
        | c2 :: rest2 =>
          if c2 = '}' then some (Json.obj [], rest2)
          else parseStep f (PMode.fields []) (c2 :: rest2)
        | [] => none
      else if c = '-' || c.isDigit then parseNumber (c :: rest)
      else none
  | f + 1, PMode.items acc, cs =>
    match parseStep f PMode.value cs with
    | some (v, rest) =>
      (match skipWs rest with
       | c :: rest2 =>
         if c = ',' then parseStep f (PMode.items (v :: acc)) rest2
         else if c = ']' then some (Json.arr (v :: acc).reverse, rest2)
         else none
       | [] => none)
    | none => none
  | f + 1, PMode.fields acc, cs =>
    match skipWs cs with
    | c :: rest =>
      if c = '"' then
        match parseStringBody (rest.length + 1) rest with
        | some (kcs, rest2) =>
          (match skipWs rest2 with
           | c2 :: rest3 =>
             if c2 = ':' then
               match parseStep f PMode.value rest3 with
               | some (v, rest4) =>
                 (match skipWs rest4 with
                  | c3 :: rest5 =>
                    if c3 = ',' then
                      parseStep f (PMode.fields ((String.mk kcs, v) :: acc)) rest5
                    else if c3 = '}' then
                      some (Json.obj ((String.mk kcs, v) :: acc).reverse, rest5)
                    else none
                  | [] => none)
               | none => none
             else none
           | [] => none)
        | none => none
      else none
    | [] => none

/-- Model of `json.loads` on strings: parse one value, allow surrounding
whitespace, reject trailing data.  `none` models a raised
`json.JSONDecodeError`. -/
def json_loads (s : String) : Option Json :=
  match parseStep (2 * s.length + 8) PMode.value s.toList with
  | some (v, rest) => if (skipWs rest).isEmpty then some v else none
  | none => none

/-- Whitespace for Python's `str.strip` and the regex class `\s` (ASCII). -/
def pyIsSpace (c : Char) : Bool :=
  c = ' ' || c = '\t' || c = '\n' || c = '\r' || c = Char.ofNat 11 || c = Char.ofNat 12

/-- Python `str.strip()`. -/
def pyStrip (s : String) : String :=
  String.mk (((s.toList.dropWhile pyIsSpace).reverse.dropWhile pyIsSpace).reverse)

def fenceToken : List Char := "```".toList

/-- Scan for the closing fence of a code block: the characters before the
first occurrence of three backticks (the non-greedy body of the pattern),
and the input after that fence; `none` if no closing fence exists. -/
def findClose (acc : List Char) : List Char → Option (List Char × List Char)
  | [] => none
  | c :: rest =>
    if fenceToken.isPrefixOf (c :: rest) then some (acc.reverse, (c :: rest).drop 3)
    else findClose (c :: acc) rest

/-- Model of `re.findall(r"```(?:json)?\s*([\s\S]*?)```", text)`: scan left to
right for an opening fence; after it, greedily take an optional literal
`json` tag and a maximal whitespace run, then the non-greedy body up to the
first closing fence; resume scanning after the closing fence.  When an
opening fence has no closing fence, no further match is possible (the tag
and whitespace contain no backtick), matching the regex engine. -/
def scanFencesF : Nat → List Char → List String
  | 0, _ => []
  | _ + 1, [] => []
  | f + 1, c :: rest =>
    if fenceToken.isPrefixOf (c :: rest) then
      let afterOpen := (c :: rest).drop 3
      let afterTag := if "json".toList.isPrefixOf afterOpen then afterOpen.drop 4 else afterOpen
      let afterWs := afterTag.dropWhile pyIsSpace
      match findClose [] afterWs with
      | some (body, remaining) => String.mk body :: scanFencesF f remaining
      | none => []
    else scanFencesF f rest

/-- The captured bodies of all fenced code blocks of `text`, in order. -/
def fencedBlocks (text : String) : List String :=
  scanFencesF (text.length + 1) text.toList

/-- The loop over fenced-block matches: return the parse of the first block
whose stripped body parses, skipping blocks that fail. -/
def firstParse : List String → Option Json
  | [] => none
  | m :: rest =>
    match json_loads (pyStrip m) with
    | some v => some v
    | none => firstParse rest

/-- Span found by `re.search(r"\{[\s\S]*\}", text)`: starts at the first `{`
that has some `}` after it and extends greedily to the last `}` of the
whole string (leftmost match position, greedy body). -/
def pyBraceSearch (text : String) : Option String :=
  braceGo text.toList
where
  lastCloseSpan (cs : List Char) : Option (List Char) :=
    let rev := cs.reverse.dropWhile (fun c => !(c = '}'))
    if rev.isEmpty then none else some rev.reverse
  braceGo : List Char → Option String
    | [] => none
    | c :: rest =>
      if c = '{' then
        match lastCloseSpan rest with
        | some body => some (String.mk (c :: body))
        | none => braceGo rest
      else braceGo rest

/-- Model of `extract_json_from_text` (source lines 88-115): try each fenced
block in order, then the whole text, then the first-`{`-to-last-`}` span;
`none` is the "no JSON found" sentinel (the source returns `None`, and every
parse failure is caught inside the function). -/
def extract_json_from_text (text : String) : Option Json :=
  match firstParse (fencedBlocks text) with
  | some v => some v
  | none =>
    match json_loads text with
    | some v => some v
    | none =>
      match pyBraceSearch text with
      | some s => json_loads s
      | none => none

example : json_loads "\x7b\"a\": 1\x7d" = some (Json.obj [("a", Json.num 1)]) := by rfl
example : json_loads "[1, 2]" = some (Json.arr [Json.num 1, Json.num 2]) := by rfl
example : json_loads "\"hi\"" = some (Json.str "hi") := by rfl
example : json_loads "null" = some Json.null := by rfl
example : json_loads "x" = none := by rfl
example : json_loads "" = none := by rfl
example : json_loads "012" = none := by rfl
example : json_loads "1.50" = json_loads "1.5" := by rfl
example : json_loads "\x7b\"a\": 1\x7d \x7b\"b\": 2\x7d" = none := by rfl
example : fencedBlocks "no fence here" = [] := by rfl
example : fencedBlocks "```json\n\x7b\"a\": 1\x7d\n```" = ["\x7b\"a\": 1\x7d\n"] := by rfl
example : extract_json_from_text "```json\n\x7b\"a\": 1\x7d\n```"
    = some (Json.obj [("a", Json.num 1)]) := by rfl
example : extract_json_from_text "hello" = none := by rfl
example : extract_json_from_text "see \x7b\"a\": 1\x7d end"
    = some (Json.obj [("a", Json.num 1)]) := by rfl

/-!
Data model of the evolving OpenAPI document.  The template dict
`API_SPEC_TEMPLATE` (source lines 20-48) is modeled by a structure over
exactly the keys the program reads or writes.  Phase 4 (source lines
437-550) starts from `API_SPEC_TEMPLATE.copy()`, a SHALLOW copy: the
top-level key `paths` is rebound locally in the copy, while the nested
`info` and `components` dicts are shared with the global template, so the
in-place writes to `info.title`, `info.description`, `info.contact`,
`info.termsOfService` and `components.schemas` also mutate the global
template.  This aliasing is embedded by having the phase return BOTH the
document it produces and the template value as mutated; `main` threads the
template so a later run would seed from the mutated value.  (When the phase
raises, the partially mutated template is dropped: the process dies with the
exception and no claim observes the global afterwards.)
-/

/-- The `info` dict: the template's three fixed fields, plus the `contact`
and `termsOfService` fields appended by phase 4 (absent in the template). -/
structure Info where
  title : Json
  description : Json
  version : Json
  contact : Option Json
  termsOfService : Option Json

/-- The `components` dict of the template. -/
structure Components where
  schemas : Json
  securitySchemes : Json

/-- The evolving OpenAPI document / the global template dict. -/
structure ApiSpec where
  openapi : Json
  info : Info
  servers : Json
  paths : Json
  components : Components

/-- The global template `API_SPEC_TEMPLATE` (source lines 20-48). -/
def API_SPEC_TEMPLATE : ApiSpec where
  openapi := Json.str "3.0.0"
  info :=
    { title := Json.str "API Specification"
      description := Json.str "REST API based on user requirements"
      version := Json.str "1.0.0"
      contact := none
      termsOfService := none }
  servers := Json.arr
    [ Json.obj [("url", Json.str "https://api.example.com/v1"),
                ("description", Json.str "Production server")]
    , Json.obj [("url", Json.str "https://staging-api.example.com/v1"),
                ("description", Json.str "Staging server")] ]
  paths := Json.obj []
  components :=
    { schemas := Json.obj []
      securitySchemes := Json.obj
        [("BearerAuth", Json.obj [("type", Json.str "http"), ("scheme", Json.str "bearer"),
                                  ("bearerFormat", Json.str "JWT")])] }

/-- The fixed contact dict appended by phase 4 (source lines 532-536). -/
def contact_info : Json :=
  Json.obj [("name", Json.str "API Support"),
            ("url", Json.str "https://example.com/support"),
            ("email", Json.str "api-support@example.com")]

def infoToJson (i : Info) : Json :=
  Json.obj
    ([("title", i.title), ("description", i.description), ("version", i.version)]
      ++ (match i.contact with | some c => [("contact", c)] | none => [])
      ++ (match i.termsOfService with | some t => [("termsOfService", t)] | none => []))

/-- The JSON value `json.dump` writes for the document. -/
def specToJson (s : ApiSpec) : Json :=
  Json.obj
    [("openapi", s.openapi), ("info", infoToJson s.info), ("servers", s.servers),
     ("paths", s.paths),
     ("components", Json.obj [("schemas", s.components.schemas),
                              ("securitySchemes", s.components.securitySchemes)])]

/-!
The working-directory file set and the five save tools (source lines
254-299).  A `.json` file holds the `Json` value that was dumped into it;
the markdown file holds text.  `none` means the file does not exist.
-/

structure FS where
  api_requirements : Option Json
  api_architecture : Option Json
  api_endpoints : Option Json
  openapi_specification : Option Json
  api_documentation : Option String

def FS.empty : FS := ⟨none, none, none, none, none⟩

/-- Tool `save_requirements` (lines 255-260). -/
def save_requirements (requirements : String) (fs : FS) : String × FS :=
  ("Requirements saved successfully",
   { fs with api_requirements := some (Json.obj [("requirements", Json.str requirements)]) })

/-- Tool `save_architecture` (lines 262-267). -/
def save_architecture (architecture : String) (fs : FS) : String × FS :=
  ("Architecture saved successfully",
   { fs with api_architecture := some (Json.obj [("architecture", Json.str architecture)]) })

/-- Tool `save_endpoints` (lines 269-279): parse the argument; on failure
return the error string with the file system untouched. -/
def save_endpoints (endpoints_json : String) (fs : FS) : String × FS :=
  match json_loads endpoints_json with
  | some endpoints =>
    ("Endpoints saved successfully", { fs with api_endpoints := some endpoints })
  | none => ("Error: Invalid JSON format", fs)

/-- Tool `save_openapi_spec` (lines 281-291). -/
def save_openapi_spec (spec_json : String) (fs : FS) : String × FS :=
  match json_loads spec_json with
  | some spec =>
    ("OpenAPI specification saved successfully",
     { fs with openapi_specification := some spec })
  | none => ("Error: Invalid JSON format", fs)

/-- Tool `save_documentation` (lines 293-299). -/
def save_documentation (documentation : String) (fs : FS) : String × FS :=
  ("Documentation saved successfully", { fs with api_documentation := some documentation })

/-- A tool invocation an agent may perform as a side effect of a run. -/
inductive ToolCall where
  | saveRequirements (s : String)
  | saveArchitecture (s : String)
  | saveEndpoints (s : String)
  | saveOpenapiSpec (s : String)
  | saveDocumentation (s : String)

def applyToolCall (fs : FS) : ToolCall → FS
  | ToolCall.saveRequirements s => (save_requirements s fs).2
  | ToolCall.saveArchitecture s => (save_architecture s fs).2
  | ToolCall.saveEndpoints s => (save_endpoints s fs).2
  | ToolCall.saveOpenapiSpec s => (save_openapi_spec s fs).2
  | ToolCall.saveDocumentation s => (save_documentation s fs).2

def applyCalls (fs : FS) (calls : List ToolCall) : FS := calls.foldl applyToolCall fs

/-!
Phases.  Each agent invocation is an external collaborator: it is modeled by
the free-form text it returns plus the list of tool calls it performed
during generation (the source exposes each agent only the tools listed in
its constructor; nothing below depends on widening that).
-/

/-- The default substituted by phase 3 on extraction failure (line 428). -/
def default_endpoints : Json := Json.obj [("paths", Json.obj [])]

/-- Phase 3 post-processing of the endpoint designer's response (lines
420-435): extract JSON; `if not endpoints:` replaces `None` and any falsy
extraction by the default. -/
def phase_3_endpoint_design (response : String) : Json :=
  match extract_json_from_text response with
  | some v => if pyTruthy v then v else default_endpoints
  | none => default_endpoints

/-- The test `isinstance(endpoints, dict) and "paths" in endpoints`
(line 463). -/
def endpointsHasPaths : Json → Bool
  | Json.obj kvs => kvs.any (fun kv => kv.1 == "paths")
  | _ => false

/-- Python `requirements.split('.')[0]`: the segment before the first `.`
(the whole string when there is no `.`). -/
def pyDotHead (s : String) : String :=
  String.mk (s.toList.takeWhile (fun c => !(c = '.')))

/-- The fallback description built at line 529. -/
def fallbackDescription (requirements : String) : String :=
  "REST API based on user requirements. " ++ pyDotHead requirements ++ "."

/-- Uncaught Python exceptions phase 4 can raise. -/
inductive PyErr where
  | typeError
  | keyError

/-- Python `needle in v` for a string needle: key membership on dicts,
element equality on lists, substring test on strings; `TypeError` on
non-container values (int, float, bool). -/
def listInfixOf (n : List Char) : List Char → Bool
  | [] => n.isEmpty
  | c :: rest => n.isPrefixOf (c :: rest) || listInfixOf n rest

def pyMembershipStr (needle : String) : Json → Except PyErr Bool
  | Json.obj kvs => Except.ok (kvs.any (fun kv => kv.1 == needle))
  | Json.arr xs =>
    Except.ok (xs.any (fun x => match x with | Json.str s => s == needle | _ => false))
  | Json.str hay => Except.ok (listInfixOf needle.toList hay.toList)
  | _ => Except.error PyErr.typeError

/-- Python subscript `v["k"]`: dict lookup (`KeyError` when absent),
`TypeError` on any non-dict value. -/
def pySubscriptStr (v : Json) (k : String) : Except PyErr Json :=
  match v with
  | Json.obj kvs =>
    match pyObjGet kvs k with
    | some x => Except.ok x
    | none => Except.error PyErr.keyError
  | _ => Except.error PyErr.typeError

/-- The condition `title_data and "title" in title_data and "description" in
title_data` (line 523), with Python short-circuiting: falsy values (and the
`None` sentinel) yield `false` without evaluating the memberships. -/
def titleCond (t : Option Json) : Except PyErr Bool :=
  match t with
  | none => Except.ok false
  | some v =>
    if pyTruthy v then
      match pyMembershipStr "title" v with
      | Except.error e => Except.error e
      | Except.ok false => Except.ok false
      | Except.ok true => pyMembershipStr "description" v
    else Except.ok false

/-- The `paths` value of the produced document (lines 463-464): the
endpoints' `paths` entry when present, else the seeded (template) `paths`.
`pyObjGet kvs "paths" = some p` holds exactly when `"paths" in endpoints`. -/
def phase4_paths (tmpl : ApiSpec) (endpoints : Json) : Json :=
  match endpoints with
  | Json.obj kvs =>
    (match pyObjGet kvs "paths" with
     | some p => p
     | none => tmpl.paths)
  | _ => tmpl.paths

/-- The `components` dict after the schema step (lines 491-497):
`if schemas:` overwrites `schemas` only for a truthy extraction. -/
def phase4_components (tmpl : ApiSpec) (schemasText : String) : Components :=
  match extract_json_from_text schemasText with
  | some schemas =>
    if pyTruthy schemas then { tmpl.components with schemas := schemas }
    else tmpl.components
  | none => tmpl.components

/-- The `info` dict after the metadata step (lines 517-539): on a successful
check use the extracted `title`/`description` (subscripting can raise
`TypeError` when the checked value is not a dict), otherwise the fixed
fallback title and first-sentence description; in either non-raising case
the fixed `contact` and `termsOfService` fields are then appended. -/
def phase4_info_core (tmpl : ApiSpec) (requirements : String) (t : Option Json) :
    Except PyErr Info :=
  match titleCond t with
  | Except.error e => Except.error e
  | Except.ok true =>
    match t with
    | some v =>
      (match pySubscriptStr v "title", pySubscriptStr v "description" with
       | Except.ok ti, Except.ok de =>
         Except.ok { tmpl.info with title := ti, description := de,
                                    contact := some contact_info,
                                    termsOfService := some (Json.str "https://example.com/terms") }
       | Except.error e, _ => Except.error e
       | _, Except.error e => Except.error e)
    | none => Except.error PyErr.typeError
  | Except.ok false =>
    Except.ok { tmpl.info with title := Json.str "REST API Specification",
                               description := Json.str (fallbackDescription requirements),
                               contact := some contact_info,
                               termsOfService := some (Json.str "https://example.com/terms") }

/-- The `info` dict after the metadata step, as a function of the coordinator
response text. -/
def phase4_info (tmpl : ApiSpec) (requirements titleText : String) : Except PyErr Info :=
  phase4_info_core tmpl requirements (extract_json_from_text titleText)

/-- Phase 4 document assembly (source lines 437-550), as a function of the
current global template, the requirements text, the EndpointsSpec, and the
texts of the schema-designer and coordinator(title) responses.  Returns the
produced document together with the global template as mutated through the
shared `info`/`components` dicts; `Except.error` models an uncaught
exception in the metadata step. -/
def phase_4_documentation_generation (tmpl : ApiSpec) (requirements : String)
    (endpoints : Json) (schemasText titleText : String) :
    Except PyErr (ApiSpec × ApiSpec) :=
  match phase4_info tmpl requirements titleText with
  | Except.error e => Except.error e
  | Except.ok info2 =>
    let tmplAfter := { tmpl with info := info2, components := phase4_components tmpl schemasText }
    Except.ok ({ tmplAfter with paths := phase4_paths tmpl endpoints }, tmplAfter)

/-!
The whole pipeline (source function `main`, lines 585-677; Lean reserves the
name `main` for executable entry points, so the model is named `mainRun`).  There are eleven agent
invocations in a full run: coordinator guidance, phase 1 (requirements
agent), coordinator feedback, phase 2 (architect), feedback, phase 3
(endpoint designer), feedback, phase 4 schema designer, phase 4 coordinator
(title), documentation agent, and the final coordinator message.  Each
invocation is modeled by its returned text and its tool calls, applied in
program order; the unconditional write of `openapi_specification.json`
(line 543) happens after the title invocation and before the documentation
invocation.
-/

structure AgentRun where
  text : String
  calls : List ToolCall

structure Behaviors where
  guidance : AgentRun
  requirementsRun : AgentRun
  requirementsFeedback : AgentRun
  architectureRun : AgentRun
  architectureFeedback : AgentRun
  endpointsRun : AgentRun
  endpointsFeedback : AgentRun
  schemasRun : AgentRun
  titleRun : AgentRun
  docRun : AgentRun
  finalRun : AgentRun

inductive RunStatus where
  | ok
  | credError
  | crashed (e : PyErr)

/-- Outcome of `main`: final files, final global template, number of agent
invocations performed, number of missing-credential reports printed. -/
structure MainResult where
  status : RunStatus
  fs : FS
  template : ApiSpec
  invocations : Nat
  credReports : Nat

/-- `not api_key` for `api_key = os.environ.get("OPENAI_API_KEY")`: true when
the variable is absent or empty. -/
def pyFalsyEnv : Option String → Bool
  | none => true
  | some s => s == ""

/-- The file system after the first nine invocations (guidance, phase 1,
feedback, phase 2, feedback, phase 3, feedback, schema designer, title
coordinator) and before the unconditional write of line 543: each
invocation's tool calls applied in program order. -/
def fsBeforeWrite (b : Behaviors) (fs0 : FS) : FS :=
  applyCalls (applyCalls (applyCalls (applyCalls (applyCalls (applyCalls (applyCalls
    (applyCalls (applyCalls fs0 b.guidance.calls) b.requirementsRun.calls)
    b.requirementsFeedback.calls) b.architectureRun.calls) b.architectureFeedback.calls)
    b.endpointsRun.calls) b.endpointsFeedback.calls) b.schemasRun.calls) b.titleRun.calls

/-- The pipeline body of `main` after the credential check: phases 1-3
produce the requirements/architecture texts and the EndpointsSpec, phase 4
assembles the document, `openapi_specification.json` is then written
unconditionally (line 543), and the documentation and final-coordinator
invocations run last.  An exception in phase 4 aborts the run after nine
invocations. -/
def mainRunPipeline (b : Behaviors) (fs0 : FS) (tmpl0 : ApiSpec) : MainResult :=
  match phase_4_documentation_generation tmpl0 b.requirementsRun.text
      (phase_3_endpoint_design b.endpointsRun.text) b.schemasRun.text b.titleRun.text with
  | Except.error e =>
    { status := RunStatus.crashed e, fs := fsBeforeWrite b fs0, template := tmpl0,
      invocations := 9, credReports := 0 }
  | Except.ok (spec, tmplAfter) =>
    { status := RunStatus.ok,
      fs := applyCalls (applyCalls
        { fsBeforeWrite b fs0 with openapi_specification := some (specToJson spec) }
        b.docRun.calls) b.finalRun.calls,
      template := tmplAfter, invocations := 11, credReports := 0 }

def mainRun (env : Option String) (b : Behaviors) (fs0 : FS) (tmpl0 : ApiSpec) : MainResult :=
  if pyFalsyEnv env then
    { status := RunStatus.credError, fs := fs0, template := tmpl0,
      invocations := 0, credReports := 1 }
  else mainRunPipeline b fs0 tmpl0

/-- Whether a call list contains no `save_openapi_spec` invocation. -/
def noOpenapiCalls (calls : List ToolCall) : Bool :=
  calls.all (fun c => match c with | ToolCall.saveOpenapiSpec _ => false | _ => true)

/-- Whether no invocation of the run performed any tool call. -/
def allCallsEmpty (b : Behaviors) : Bool :=
  b.guidance.calls.isEmpty && b.requirementsRun.calls.isEmpty
    && b.requirementsFeedback.calls.isEmpty && b.architectureRun.calls.isEmpty
    && b.architectureFeedback.calls.isEmpty && b.endpointsRun.calls.isEmpty
    && b.endpointsFeedback.calls.isEmpty && b.schemasRun.calls.isEmpty
    && b.titleRun.calls.isEmpty && b.docRun.calls.isEmpty && b.finalRun.calls.isEmpty

/-- An agent run returning plain prose (no JSON anywhere) and performing no
tool call. -/
def noToolRun : AgentRun := ⟨"x", []⟩

/-- A full-pipeline behavior in which every invocation returns plain prose
and no save tool ever fires. -/
def noToolBehaviors : Behaviors :=
  ⟨noToolRun, noToolRun, noToolRun, noToolRun, noToolRun, noToolRun,
   noToolRun, noToolRun, noToolRun, noToolRun, noToolRun⟩

example : phase_3_endpoint_design "\x7b\"foo\": 1\x7d" = Json.obj [("foo", Json.num 1)] := by rfl
example : phase_3_endpoint_design "zzz" = default_endpoints := by rfl
example : phase_3_endpoint_design "\x7b\x7d" = default_endpoints := by rfl
example : phase_3_endpoint_design "null" = default_endpoints := by rfl
example : phase_4_documentation_generation API_SPEC_TEMPLATE "r" default_endpoints ""
    "[\"title\", \"description\"]" = Except.error PyErr.typeError := by rfl
example :
    (mainRun (some "k") noToolBehaviors FS.empty API_SPEC_TEMPLATE).fs.api_requirements
      = none := by rfl
example :
    (mainRun (some "k") noToolBehaviors FS.empty API_SPEC_TEMPLATE).status
      = RunStatus.ok := by rfl

/-!
Helper lemmas.
-/

theorem firstParse_of_first (ms : List String) :
    ∀ (i : Nat) (hi : i < ms.length) (v : Json),
      json_loads (pyStrip (ms.get ⟨i, hi⟩)) = some v →
      (∀ j (hj : j < i), json_loads (pyStrip (ms.get ⟨j, Nat.lt_trans hj hi⟩)) = none) →
      firstParse ms = some v := by
  induction ms with
  | nil => intro i hi v _ _; exact absurd hi (Nat.not_lt_zero i)
  | cons m rest ih =>
    intro i hi v hv hp
    cases i with
    | zero =>
      simp only [List.get] at hv
      simp [firstParse, hv]
    | succ i2 =>
      have h0 : json_loads (pyStrip m) = none := hp 0 (Nat.succ_pos i2)
      simp only [firstParse, h0]
      exact ih i2 (Nat.lt_of_succ_lt_succ hi) v hv
        (fun j hj => hp (j + 1) (Nat.succ_lt_succ hj))

theorem firstParse_none_of_all (ms : List String)
    (h : ∀ m, m ∈ ms → json_loads (pyStrip m) = none) : firstParse ms = none := by
  induction ms with
  | nil => rfl
  | cons m rest ih =>
    simp only [firstParse, h m (List.mem_cons_self m rest)]
    exact ih (fun x hx => h x (List.mem_cons_of_mem m hx))

theorem pyObjGet_none_of_any_false (kvs : List (String × Json)) (k : String)
    (h : kvs.any (fun kv => kv.1 == k) = false) : pyObjGet kvs k = none := by
  induction kvs with
  | nil => rfl
  | cons kv rest ih =>
    simp only [List.any_cons, Bool.or_eq_false_iff] at h
    simp only [pyObjGet, ih h.2, h.1]
    simp

theorem pyObjGet_some_any (kvs : List (String × Json)) (k : String) (x : Json)
    (h : pyObjGet kvs k = some x) : kvs.any (fun kv => kv.1 == k) = true := by
  induction kvs with
  | nil => exact absurd h (by simp [pyObjGet])
  | cons kv rest ih =>
    simp only [pyObjGet] at h
    simp only [List.any_cons, Bool.or_eq_true_iff]
    cases hr : pyObjGet rest k with
    | some y => exact Or.inr (ih (by rw [hr] at h ⊢; exact h ▸ rfl))
    | none =>
      rw [hr] at h
      by_cases hk : kv.1 == k
      · exact Or.inl hk
      · rw [if_neg (by simpa using hk)] at h; exact absurd h (by simp)

theorem phase4_ok_inv (tmpl : ApiSpec) (reqs sText tText : String) (endpoints : Json)
    (spec tmplAfter : ApiSpec)
    (h : phase_4_documentation_generation tmpl reqs endpoints sText tText
      = Except.ok (spec, tmplAfter)) :
    ∃ info2, phase4_info tmpl reqs tText = Except.ok info2 ∧
      tmplAfter = { tmpl with info := info2, components := phase4_components tmpl sText } ∧
      spec = { tmplAfter with paths := phase4_paths tmpl endpoints } := by
  cases heq : phase4_info tmpl reqs tText with
  | error e =>
    simp only [phase_4_documentation_generation, heq] at h
    exact Except.noConfusion h
  | ok info2 =>
    simp only [phase_4_documentation_generation, heq, Except.ok.injEq, Prod.mk.injEq] at h
    exact ⟨info2, rfl, h.2.symm, by rw [← h.1, ← h.2]⟩

theorem phase4_error_iff (tmpl : ApiSpec) (reqs sText tText : String) (endpoints : Json)
    (e : PyErr) :
    phase_4_documentation_generation tmpl reqs endpoints sText tText = Except.error e ↔
      phase4_info tmpl reqs tText = Except.error e := by
  cases heq : phase4_info tmpl reqs tText with
  | error e2 => simp [phase_4_documentation_generation, heq]
  | ok info2 => simp [phase_4_documentation_generation, heq]

theorem phase4_info_core_fixed_fields (tmpl : ApiSpec) (reqs : String) (t : Option Json)
    (info2 : Info) (h : phase4_info_core tmpl reqs t = Except.ok info2) :
    info2.contact = some contact_info ∧
      info2.termsOfService = some (Json.str "https://example.com/terms") := by
  unfold phase4_info_core at h
  split at h
  · exact Except.noConfusion h
  · split at h
    · split at h
      · simp only [Except.ok.injEq] at h
        subst h
        exact ⟨rfl, rfl⟩
      · exact Except.noConfusion h
      · exact Except.noConfusion h
    · exact Except.noConfusion h
  · simp only [Except.ok.injEq] at h
    subst h
    exact ⟨rfl, rfl⟩

theorem phase4_info_fixed_fields (tmpl : ApiSpec) (reqs tText : String) (info2 : Info)
    (h : phase4_info tmpl reqs tText = Except.ok info2) :
    info2.contact = some contact_info ∧
      info2.termsOfService = some (Json.str "https://example.com/terms") :=
  phase4_info_core_fixed_fields tmpl reqs (extract_json_from_text tText) info2 h

theorem phase4_info_of_cond_false (tmpl : ApiSpec) (reqs tText : String)
    (h : titleCond (extract_json_from_text tText) = Except.ok false) :
    phase4_info tmpl reqs tText =
      Except.ok { tmpl.info with title := Json.str "REST API Specification",
                                 description := Json.str (fallbackDescription reqs),
                                 contact := some contact_info,
                                 termsOfService := some (Json.str "https://example.com/terms") } := by
  unfold phase4_info phase4_info_core
  rw [h]

theorem titleCond_true_of_obj (kvs : List (String × Json)) (ti de : Json)
    (hti : pyObjGet kvs "title" = some ti) (hde : pyObjGet kvs "description" = some de) :
    titleCond (some (Json.obj kvs)) = Except.ok true := by
  have hne : kvs ≠ [] := by
    intro hk; rw [hk] at hti; exact absurd hti (by simp [pyObjGet])
  have htruthy : pyTruthy (Json.obj kvs) = true := by
    cases kvs with
    | nil => exact absurd rfl hne
    | cons a l => rfl
  have h1 := pyObjGet_some_any kvs "title" ti hti
  have h2 := pyObjGet_some_any kvs "description" de hde
  simp [titleCond, htruthy, pyMembershipStr, h1, h2]

theorem phase4_info_of_obj (tmpl : ApiSpec) (reqs tText : String)
    (kvs : List (String × Json)) (ti de : Json)
    (hx : extract_json_from_text tText = some (Json.obj kvs))
    (hti : pyObjGet kvs "title" = some ti) (hde : pyObjGet kvs "description" = some de) :
    phase4_info tmpl reqs tText =
      Except.ok { tmpl.info with title := ti, description := de,
                                 contact := some contact_info,
                                 termsOfService := some (Json.str "https://example.com/terms") } := by
  unfold phase4_info phase4_info_core
  rw [hx, titleCond_true_of_obj kvs ti de hti hde]
  simp [pySubscriptStr, hti, hde]

theorem applyToolCall_openapi_isSome (fs : FS) (c : ToolCall)
    (h : fs.openapi_specification.isSome = true) :
    (applyToolCall fs c).openapi_specification.isSome = true := by
  cases c with
  | saveOpenapiSpec s =>
    simp only [applyToolCall, save_openapi_spec]
    cases json_loads s <;> simp [h]
  | saveRequirements s => exact h
  | saveArchitecture s => exact h
  | saveEndpoints s =>
    simp only [applyToolCall, save_endpoints]
    cases json_loads s <;> simp [h]
  | saveDocumentation s => exact h

theorem applyCalls_openapi_isSome (calls : List ToolCall) :
    ∀ (fs : FS), fs.openapi_specification.isSome = true →
      (applyCalls fs calls).openapi_specification.isSome = true := by
  induction calls with
  | nil => intro fs h; exact h
  | cons c rest ih =>
    intro fs h
    exact ih (applyToolCall fs c) (applyToolCall_openapi_isSome fs c h)

theorem applyToolCall_openapi_of_not (fs : FS) (c : ToolCall)
    (h : (match c with | ToolCall.saveOpenapiSpec _ => false | _ => true) = true) :
    (applyToolCall fs c).openapi_specification = fs.openapi_specification := by
  cases c with
  | saveOpenapiSpec s => exact absurd h (by simp)
  | saveRequirements s => rfl
  | saveArchitecture s => rfl
  | saveEndpoints s =>
    simp only [applyToolCall, save_endpoints]
    cases json_loads s <;> rfl
  | saveDocumentation s => rfl

theorem applyCalls_openapi_of_no (calls : List ToolCall) (h : noOpenapiCalls calls = true) :
    ∀ (fs : FS), (applyCalls fs calls).openapi_specification = fs.openapi_specification := by
  induction calls with
  | nil => intro fs; rfl
  | cons c rest ih =>
    intro fs
    simp only [noOpenapiCalls, List.all_cons, Bool.and_eq_true] at h
    rw [show applyCalls fs (c :: rest) = applyCalls (applyToolCall fs c) rest from rfl,
        ih (by simp [noOpenapiCalls, h.2]) (applyToolCall fs c),
        applyToolCall_openapi_of_not fs c h.1]

theorem applyCalls_nil (fs : FS) : applyCalls fs [] = fs := rfl

theorem mainRun_of_env (env : Option String) (b : Behaviors) (fs0 : FS) (tmpl0 : ApiSpec)
    (henv : pyFalsyEnv env = false) :
    mainRun env b fs0 tmpl0 = mainRunPipeline b fs0 tmpl0 := by
  simp [mainRun, henv]

theorem mainRunPipeline_ok (b : Behaviors) (fs0 : FS) (tmpl0 spec tmplAfter : ApiSpec)
    (h4 : phase_4_documentation_generation tmpl0 b.requirementsRun.text
      (phase_3_endpoint_design b.endpointsRun.text) b.schemasRun.text b.titleRun.text
      = Except.ok (spec, tmplAfter)) :
    mainRunPipeline b fs0 tmpl0 =
      { status := RunStatus.ok,
        fs := applyCalls (applyCalls
          { fsBeforeWrite b fs0 with openapi_specification := some (specToJson spec) }
          b.docRun.calls) b.finalRun.calls,
        template := tmplAfter, invocations := 11, credReports := 0 } := by
  unfold mainRunPipeline
  rw [h4]

theorem phase4_ok_of_info (tmpl : ApiSpec) (reqs sText tText : String) (endpoints : Json)
    (info2 : Info) (h : phase4_info tmpl reqs tText = Except.ok info2) :
    phase_4_documentation_generation tmpl reqs endpoints sText tText =
      Except.ok
        ({ tmpl with info := info2, components := phase4_components tmpl sText,
                     paths := phase4_paths tmpl endpoints },
         { tmpl with info := info2, components := phase4_components tmpl sText }) := by
  unfold phase_4_documentation_generation
  rw [h]

/-!
Claim theorems.
-/

/-- C5 (confirmed): for every input text, the extractor attempts the fenced
code blocks in order of appearance and returns the parsed value of the
first block whose stripped body parses as JSON; earlier malformed blocks
are skipped rather than aborting the scan, and once block `i` parses, no
later block influences the result. -/
theorem C5_extractor_first_parseable_block (text : String) (i : Nat) (v : Json)
    (hi : i < (fencedBlocks text).length)
    (hv : json_loads (pyStrip ((fencedBlocks text).get ⟨i, hi⟩)) = some v)
    (hprev : ∀ j (hj : j < i),
      json_loads (pyStrip ((fencedBlocks text).get ⟨j, Nat.lt_trans hj hi⟩)) = none) :
    extract_json_from_text text = some v := by
  have hf := firstParse_of_first (fencedBlocks text) i hi v hv hprev
  simp [extract_json_from_text, hf]

/-- Witness for C5: two fenced json blocks, the first malformed, the second
valid; the extractor returns the second block's parsed value. -/
theorem C5_witness :
    extract_json_from_text "```json\n\x7bbad\n``` and ```json\n\x7b\"a\": 1\x7d\n```"
      = some (Json.obj [("a", Json.num 1)]) :=
  C5_extractor_first_parseable_block
    "```json\n\x7bbad\n``` and ```json\n\x7b\"a\": 1\x7d\n```" 1 (Json.obj [("a", Json.num 1)])
    (by decide) (by rfl)
    (by
      intro j hj
      have hj0 : j = 0 := Nat.lt_one_iff.mp hj
      subst hj0
      rfl)

/-- C6 (confirmed): when no fenced block parses, the extractor parses the
entire input next (so bare JSON with no fences is returned unchanged), and
only if that fails does it parse the single greedy first-`\x7b`-to-last-`\x7d`
span; that span is not minimal and can swallow trailing garbage when the
text holds two top-level objects, making the final attempt fail even though
a minimal object was present. -/
theorem C6_extractor_fallback_order :
    (∀ text, firstParse (fencedBlocks text) = none →
      extract_json_from_text text =
        (match json_loads text with
         | some v => some v
         | none =>
           match pyBraceSearch text with
           | some s => json_loads s
           | none => none)) ∧
    pyBraceSearch "x \x7b\"a\": 1\x7d \x7b\"b\": 2\x7d" = some "\x7b\"a\": 1\x7d \x7b\"b\": 2\x7d" ∧
    json_loads "\x7b\"a\": 1\x7d" = some (Json.obj [("a", Json.num 1)]) ∧
    extract_json_from_text "x \x7b\"a\": 1\x7d \x7b\"b\": 2\x7d" = none := by
  refine ⟨?_, by rfl, by rfl, by rfl⟩
  intro text h
  simp [extract_json_from_text, h]

/-- Witness for C6: a bare JSON object with no fences is returned unchanged
by the whole-text parsing stage. -/
theorem C6_witness :
    extract_json_from_text "\x7b\"a\": 1\x7d" = some (Json.obj [("a", Json.num 1)]) :=
  (C6_extractor_fallback_order.1 "\x7b\"a\": 1\x7d" rfl).trans (by rfl)

/-- C7 (confirmed): the extractor is total (every parse failure is caught
inside it — in the embedding it is a total function into `Option`), and on
input where no fenced block, nor the whole text, nor the brace span parses,
it returns the `none` sentinel. -/
theorem C7_extractor_sentinel (text : String)
    (h1 : ∀ m, m ∈ fencedBlocks text → json_loads (pyStrip m) = none)
    (h2 : json_loads text = none)
    (h3 : ∀ s, pyBraceSearch text = some s → json_loads s = none) :
    extract_json_from_text text = none := by
  have hf := firstParse_none_of_all (fencedBlocks text) h1
  simp only [extract_json_from_text, hf, h2]
  cases hb : pyBraceSearch text with
  | none => rfl
  | some s => exact h3 s hb

/-- Witness for C7: prose with no JSON anywhere yields the sentinel. -/
theorem C7_witness : extract_json_from_text "hello world" = none :=
  C7_extractor_sentinel "hello world"
    (by
      intro m hm
      rw [show fencedBlocks "hello world" = ([] : List String) from rfl] at hm
      exact absurd hm (List.not_mem_nil m))
    (by rfl)
    (by
      intro s hs
      rw [show pyBraceSearch "hello world" = none from rfl] at hs
      exact Option.noConfusion hs)

/-- C8 (confirmed): the two JSON-expecting save tools catch parse failures
internally: on a non-JSON argument each returns the error status string and
leaves its target file untouched; on a valid-JSON argument each writes the
parsed value to its file and returns its success status string.  (In the
embedding they are total functions: nothing is raised to the caller.) -/
theorem C8_json_tools_catch_errors (s : String) (fs : FS) :
    (json_loads s = none →
      save_endpoints s fs = ("Error: Invalid JSON format", fs) ∧
      save_openapi_spec s fs = ("Error: Invalid JSON format", fs)) ∧
    (∀ v, json_loads s = some v →
      save_endpoints s fs = ("Endpoints saved successfully",
        { fs with api_endpoints := some v }) ∧
      save_openapi_spec s fs = ("OpenAPI specification saved successfully",
        { fs with openapi_specification := some v })) := by
  constructor
  · intro h
    constructor <;> simp [save_endpoints, save_openapi_spec, h]
  · intro v h
    constructor <;> simp [save_endpoints, save_openapi_spec, h]

/-- Witness for C8: a malformed argument is reported and writes nothing; a
valid one is written and reported as success. -/
theorem C8_witness :
    save_endpoints "not json" FS.empty = ("Error: Invalid JSON format", FS.empty) ∧
    save_openapi_spec "\x7b\x7d" FS.empty = ("OpenAPI specification saved successfully",
      { FS.empty with openapi_specification := some (Json.obj []) }) :=
  ⟨((C8_json_tools_catch_errors "not json" FS.empty).1 (by rfl)).1,
   ((C8_json_tools_catch_errors "\x7b\x7d" FS.empty).2 (Json.obj []) (by rfl)).2⟩

/-- C9 (confirmed): with the credential absent from the environment, the
check fires before any phase: the failure is reported exactly once, no
agent invocation is performed, no file is written (the file system and the
template are returned untouched), and the run halts. -/
theorem C9_missing_credential_halts (b : Behaviors) (fs0 : FS) (tmpl0 : ApiSpec) :
    mainRun none b fs0 tmpl0 =
      { status := RunStatus.credError, fs := fs0, template := tmpl0,
        invocations := 0, credReports := 1 } := rfl

/-- Counterexample for C2: the endpoint designer's response is a valid JSON
object without a `paths` key; phase 3 returns it unchanged, so downstream
consumers do NOT always receive a dict containing a `paths` mapping. -/
theorem C2_counterexample :
    phase_3_endpoint_design "\x7b\"foo\": 1\x7d" = Json.obj [("foo", Json.num 1)] ∧
    endpointsHasPaths (phase_3_endpoint_design "\x7b\"foo\": 1\x7d") = false :=
  ⟨rfl, rfl⟩

/-- C2 as amended: phase 3 never returns the `None` sentinel (nor a JSON
null): when extraction fails or yields a falsy value it substitutes the
default `\x7b"paths": \x7b\x7d\x7d` (which does contain an empty `paths`
mapping) and continues non-fatally; but when extraction yields a truthy
value, that value is returned unchanged, and it need not contain a `paths`
key (nor even be a dict). -/
theorem C2_endpoints_never_none (response : String) :
    phase_3_endpoint_design response ≠ Json.null ∧
    (extract_json_from_text response = none →
      phase_3_endpoint_design response = default_endpoints) ∧
    (∀ v, extract_json_from_text response = some v → pyTruthy v = false →
      phase_3_endpoint_design response = default_endpoints) ∧
    (∀ v, extract_json_from_text response = some v → pyTruthy v = true →
      phase_3_endpoint_design response = v) ∧
    endpointsHasPaths default_endpoints = true := by
  refine ⟨?_, ?_, ?_, ?_, rfl⟩
  · intro hnull
    cases hx : extract_json_from_text response with
    | none =>
      simp only [phase_3_endpoint_design, hx] at hnull
      simp [default_endpoints] at hnull
    | some v =>
      simp only [phase_3_endpoint_design, hx] at hnull
      by_cases htv : pyTruthy v = true
      · rw [if_pos htv] at hnull
        subst hnull
        simp [pyTruthy] at htv
      · rw [if_neg htv] at hnull
        simp [default_endpoints] at hnull
  · intro hx
    simp [phase_3_endpoint_design, hx]
  · intro v hx htv
    simp [phase_3_endpoint_design, hx, htv]
  · intro v hx htv
    simp [phase_3_endpoint_design, hx, htv]

/-- Witness for C2: on a response with no JSON the default is substituted. -/
theorem C2_witness :
    phase_3_endpoint_design "zzz" = default_endpoints ∧
    phase_3_endpoint_design "zzz" ≠ Json.null :=
  ⟨(C2_endpoints_never_none "zzz").2.1 (by rfl), (C2_endpoints_never_none "zzz").1⟩

/-- C3 (confirmed): for every EndpointsSpec lacking a `paths` key (or not a
dict at all), phase 4 produces a document whose `paths` is the template's
original empty mapping (never null/None); and any exception the phase
raises is independent of the endpoints value (the identical error occurs
with a well-formed EndpointsSpec), so the missing key itself never causes a
crash. -/
theorem C3_missing_paths_key_safe (reqs sText tText : String) (endpoints : Json)
    (hnp : endpointsHasPaths endpoints = false) :
    (∀ spec tmplAfter,
      phase_4_documentation_generation API_SPEC_TEMPLATE reqs endpoints sText tText
        = Except.ok (spec, tmplAfter) →
      spec.paths = API_SPEC_TEMPLATE.paths ∧ spec.paths = Json.obj [] ∧
        spec.paths ≠ Json.null) ∧
    (∀ e, phase_4_documentation_generation API_SPEC_TEMPLATE reqs endpoints sText tText
        = Except.error e →
      phase_4_documentation_generation API_SPEC_TEMPLATE reqs default_endpoints sText tText
        = Except.error e) := by
  have hpaths : phase4_paths API_SPEC_TEMPLATE endpoints = API_SPEC_TEMPLATE.paths := by
    cases endpoints with
    | obj kvs =>
      have h0 := pyObjGet_none_of_any_false kvs "paths"
        (by simpa [endpointsHasPaths] using hnp)
      simp [phase4_paths, h0]
    | null => rfl
    | bool b => rfl
    | num n => rfl
    | dec m e => rfl
    | str s => rfl
    | arr xs => rfl
  constructor
  · intro spec tmplAfter h
    obtain ⟨info2, hinfo, hT, hS⟩ := phase4_ok_inv _ _ _ _ _ _ _ h
    have hsp : spec.paths = phase4_paths API_SPEC_TEMPLATE endpoints := by rw [hS]
    rw [hsp, hpaths]
    exact ⟨rfl, rfl, fun hh => Json.noConfusion hh⟩
  · intro e he
    rw [phase4_error_iff] at he ⊢
    exact he

/-- Witness for C3: a dict without `paths` flows through phase 4 without
error and the produced document keeps the template's empty paths. -/
theorem C3_witness :
    ∃ spec tmplAfter,
      phase_4_documentation_generation API_SPEC_TEMPLATE "r" (Json.obj [("foo", Json.num 1)])
        "" "" = Except.ok (spec, tmplAfter) ∧ spec.paths = Json.obj [] := by
  refine ⟨_, _, rfl, ?_⟩
  exact (((C3_missing_paths_key_safe "r" "" "" (Json.obj [("foo", Json.num 1)])
    (by rfl)).1) _ _ rfl).2.1

/-- Counterexample for C4: a coordinator response whose extracted JSON is
the list `["title", "description"]`.  No title/description fields are
extracted, so by the claim the fallback should be used, but Python's `in`
membership check passes on the list and the subsequent `title_data["title"]`
subscript raises `TypeError`: the phase crashes instead of producing the
fallback document. -/
theorem C4_counterexample :
    phase_4_documentation_generation API_SPEC_TEMPLATE "some requirements" default_endpoints
      "" "[\"title\", \"description\"]" = Except.error PyErr.typeError := rfl

/-- C4 as amended: when the coordinator response's extracted JSON is a dict
containing both `title` and `description` keys, those values become
`info.title` and `info.description`; when the checked condition
(`title_data and "title" in title_data and "description" in title_data`)
evaluates to false — extraction failed, the value is falsy, or a membership
test fails — the fixed fallback title and the first-sentence description
are used; but a truthy non-dict value that passes both membership tests
(e.g. a list containing both strings) makes the phase raise `TypeError`
instead of falling back.  In every non-raising case the fixed
`info.contact` and `info.termsOfService` are appended afterward. -/
theorem C4_metadata_extraction (tmpl : ApiSpec) (reqs sText tText : String)
    (endpoints : Json) :
    (∀ kvs ti de, extract_json_from_text tText = some (Json.obj kvs) →
      pyObjGet kvs "title" = some ti → pyObjGet kvs "description" = some de →
      ∃ spec tmplAfter,
        phase_4_documentation_generation tmpl reqs endpoints sText tText
          = Except.ok (spec, tmplAfter) ∧
        spec.info.title = ti ∧ spec.info.description = de) ∧
    (titleCond (extract_json_from_text tText) = Except.ok false →
      ∃ spec tmplAfter,
        phase_4_documentation_generation tmpl reqs endpoints sText tText
          = Except.ok (spec, tmplAfter) ∧
        spec.info.title = Json.str "REST API Specification" ∧
        spec.info.description = Json.str (fallbackDescription reqs)) ∧
    (∀ spec tmplAfter,
      phase_4_documentation_generation tmpl reqs endpoints sText tText
        = Except.ok (spec, tmplAfter) →
      spec.info.contact = some contact_info ∧
      spec.info.termsOfService = some (Json.str "https://example.com/terms")) := by
  refine ⟨?_, ?_, ?_⟩
  · intro kvs ti de hx hti hde
    exact ⟨_, _,
      phase4_ok_of_info tmpl reqs sText tText endpoints _
        (phase4_info_of_obj tmpl reqs tText kvs ti de hx hti hde), rfl, rfl⟩
  · intro hc
    exact ⟨_, _,
      phase4_ok_of_info tmpl reqs sText tText endpoints _
        (phase4_info_of_cond_false tmpl reqs tText hc), rfl, rfl⟩
  · intro spec tmplAfter h
    obtain ⟨info2, hinfo, hT, hS⟩ := phase4_ok_inv _ _ _ _ _ _ _ h
    have hsi : spec.info = info2 := by rw [hS, hT]
    rw [hsi]
    exact phase4_info_fixed_fields _ _ _ _ hinfo

/-- Witness for C4: a response carrying a title/description object is used
as extracted. -/
theorem C4_witness :
    ∃ spec tmplAfter,
      phase_4_documentation_generation API_SPEC_TEMPLATE "r" default_endpoints ""
        "\x7b\"title\": \"T\", \"description\": \"D\"\x7d" = Except.ok (spec, tmplAfter) ∧
      spec.info.title = Json.str "T" ∧ spec.info.description = Json.str "D" :=
  (C4_metadata_extraction API_SPEC_TEMPLATE "r" ""
      "\x7b\"title\": \"T\", \"description\": \"D\"\x7d" default_endpoints).1
    [("title", Json.str "T"), ("description", Json.str "D")] (Json.str "T") (Json.str "D")
    (by rfl) (by rfl) (by rfl)

/-- C10 (confirmed): phase 4 seeds its document from a shallow copy of the
global template, so the `info` metadata and `components` (hence the
schemas) it writes are also visible in the global template after the run,
while the template's own top-level `paths` entry is the only assigned key
left unmodified; a second run in the same process seeds from the mutated
template, e.g. when its schema extraction fails it inherits the first
run's schemas instead of the pristine empty mapping. -/
theorem C10_template_shared_mutation (reqs sText tText : String) (endpoints : Json)
    (spec tmplAfter : ApiSpec)
    (h : phase_4_documentation_generation API_SPEC_TEMPLATE reqs endpoints sText tText
      = Except.ok (spec, tmplAfter)) :
    tmplAfter.info = spec.info ∧
    tmplAfter.components = spec.components ∧
    tmplAfter.paths = API_SPEC_TEMPLATE.paths ∧
    (∀ reqs2 sText2 tText2 endpoints2 spec2 tmpl2,
      extract_json_from_text sText2 = none →
      phase_4_documentation_generation tmplAfter reqs2 endpoints2 sText2 tText2
        = Except.ok (spec2, tmpl2) →
      spec2.components.schemas = spec.components.schemas) := by
  obtain ⟨info2, hinfo, hT, hS⟩ := phase4_ok_inv _ _ _ _ _ _ _ h
  refine ⟨by rw [hS], by rw [hS], by rw [hT], ?_⟩
  intro reqs2 sText2 tText2 endpoints2 spec2 tmpl2 hx2 h2
  obtain ⟨info3, hinfo3, hT3, hS3⟩ := phase4_ok_inv _ _ _ _ _ _ _ h2
  have hc : phase4_components tmplAfter sText2 = tmplAfter.components := by
    simp [phase4_components, hx2]
  rw [hS3, hT3, hc, hS]

/-- Witness for C10: a first run whose schema extraction succeeds pushes its
schemas into the global template; a second run with failing schema
extraction then still carries the first run's schemas. -/
theorem C10_witness :
    ∃ spec tmplAfter,
      phase_4_documentation_generation API_SPEC_TEMPLATE "r" default_endpoints
        "\x7b\"A\": 1\x7d" "zzz" = Except.ok (spec, tmplAfter) ∧
      tmplAfter.info = spec.info ∧ tmplAfter.components = spec.components ∧
      tmplAfter.paths = API_SPEC_TEMPLATE.paths ∧
      tmplAfter.components.schemas = Json.obj [("A", Json.num 1)] := by
  refine ⟨_, _, rfl, ?_⟩
  have h := C10_template_shared_mutation "r" "\x7b\"A\": 1\x7d" "zzz" default_endpoints _ _ rfl
  exact ⟨h.1, h.2.1, h.2.2.1, by rfl⟩

/-- Counterexample for C1: a completed full run in which every invocation
returns prose and never fires a save tool; the pipeline finishes, yet
`api_requirements.json`, `api_architecture.json`, `api_endpoints.json` and
`api_documentation.md` do not exist — only the claim's
`openapi_specification.json` part survives. -/
theorem C1_counterexample :
    (mainRun (some "key") noToolBehaviors FS.empty API_SPEC_TEMPLATE).status = RunStatus.ok ∧
    (mainRun (some "key") noToolBehaviors FS.empty API_SPEC_TEMPLATE).fs.api_requirements
      = none ∧
    (mainRun (some "key") noToolBehaviors FS.empty API_SPEC_TEMPLATE).fs.api_architecture
      = none ∧
    (mainRun (some "key") noToolBehaviors FS.empty API_SPEC_TEMPLATE).fs.api_endpoints
      = none ∧
    (mainRun (some "key") noToolBehaviors FS.empty API_SPEC_TEMPLATE).fs.api_documentation
      = none :=
  ⟨rfl, rfl, rfl, rfl, rfl⟩

/-- C1 as amended: whenever the credential is present and phase 4 completes,
the run completes and `openapi_specification.json` exists afterwards — it
is written unconditionally during phase SPEC_AND_DOCS; unless a later
invocation calls the save-openapi-spec tool, the file holds exactly the
assembled document, whose `info.contact` and `info.termsOfService` are
fixed non-empty values and whose `info.title` is the non-empty fallback
whenever the title check fails; the other four files, however, are written
only by agent tool calls, so with no tool calls they remain exactly as
before the run. -/
theorem C1_openapi_persistence (env : Option String) (b : Behaviors) (fs0 : FS)
    (spec tmplAfter : ApiSpec)
    (henv : pyFalsyEnv env = false)
    (h4 : phase_4_documentation_generation API_SPEC_TEMPLATE b.requirementsRun.text
      (phase_3_endpoint_design b.endpointsRun.text) b.schemasRun.text b.titleRun.text
      = Except.ok (spec, tmplAfter)) :
    (mainRun env b fs0 API_SPEC_TEMPLATE).status = RunStatus.ok ∧
    ((mainRun env b fs0 API_SPEC_TEMPLATE).fs.openapi_specification).isSome = true ∧
    (noOpenapiCalls b.docRun.calls = true → noOpenapiCalls b.finalRun.calls = true →
      (mainRun env b fs0 API_SPEC_TEMPLATE).fs.openapi_specification
        = some (specToJson spec)) ∧
    spec.info.contact = some contact_info ∧
    spec.info.termsOfService = some (Json.str "https://example.com/terms") ∧
    (titleCond (extract_json_from_text b.titleRun.text) = Except.ok false →
      spec.info.title = Json.str "REST API Specification") ∧
    (allCallsEmpty b = true →
      (mainRun env b fs0 API_SPEC_TEMPLATE).fs.api_requirements = fs0.api_requirements ∧
      (mainRun env b fs0 API_SPEC_TEMPLATE).fs.api_architecture = fs0.api_architecture ∧
      (mainRun env b fs0 API_SPEC_TEMPLATE).fs.api_endpoints = fs0.api_endpoints ∧
      (mainRun env b fs0 API_SPEC_TEMPLATE).fs.api_documentation = fs0.api_documentation) := by
  have hm : mainRun env b fs0 API_SPEC_TEMPLATE =
      { status := RunStatus.ok,
        fs := applyCalls (applyCalls
          { fsBeforeWrite b fs0 with openapi_specification := some (specToJson spec) }
          b.docRun.calls) b.finalRun.calls,
        template := tmplAfter, invocations := 11, credReports := 0 } :=
    (mainRun_of_env env b fs0 API_SPEC_TEMPLATE henv).trans
      (mainRunPipeline_ok b fs0 API_SPEC_TEMPLATE spec tmplAfter h4)
  obtain ⟨info2, hinfo, hT, hS⟩ := phase4_ok_inv _ _ _ _ _ _ _ h4
  have hsi : spec.info = info2 := by rw [hS, hT]
  refine ⟨by rw [hm], ?_, ?_, ?_, ?_, ?_, ?_⟩
  · rw [hm]
    exact applyCalls_openapi_isSome b.finalRun.calls _
      (applyCalls_openapi_isSome b.docRun.calls _ rfl)
  · intro hdoc hfin
    rw [hm]
    rw [applyCalls_openapi_of_no b.finalRun.calls hfin,
        applyCalls_openapi_of_no b.docRun.calls hdoc]
  · rw [hsi]
    exact (phase4_info_fixed_fields _ _ _ _ hinfo).1
  · rw [hsi]
    exact (phase4_info_fixed_fields _ _ _ _ hinfo).2
  · intro hc
    have h5 := phase4_info_of_cond_false API_SPEC_TEMPLATE b.requirementsRun.text
      b.titleRun.text hc
    rw [hinfo, Except.ok.injEq] at h5
    rw [hsi, h5]
  · intro hall
    simp only [allCallsEmpty, Bool.and_eq_true, List.isEmpty_iff] at hall
    obtain ⟨⟨⟨⟨⟨⟨⟨⟨⟨⟨hg, hr⟩, hrf⟩, ha⟩, haf⟩, he⟩, hef⟩, hs⟩, ht⟩, hd⟩, hf⟩ := hall
    rw [hm]
    simp only [fsBeforeWrite, hg, hr, hrf, ha, haf, he, hef, hs, ht, hd, hf, applyCalls_nil]
    exact ⟨trivial, trivial, trivial, trivial⟩

/-- Witness for C1 as amended: the no-tool-call run completes with
`openapi_specification.json` present, holding the assembled document with
the fixed contact and terms-of-service metadata and the fallback title. -/
theorem C1_witness :
    (mainRun (some "key2") noToolBehaviors FS.empty API_SPEC_TEMPLATE).status
      = RunStatus.ok ∧
    ((mainRun (some "key2") noToolBehaviors FS.empty
      API_SPEC_TEMPLATE).fs.openapi_specification).isSome = true := by
  have h := C1_openapi_persistence (some "key2") noToolBehaviors FS.empty _ _ (by rfl) (by rfl)
  exact ⟨h.1, h.2.1⟩
